import Mathlib

/-!
Verification development for the `policy-chat` repository.

The repository ships the browser side of a conversational retrieval system:
`src/frontend/src/policyTransport.js` (HTTP transport and session-id storage),
`src/frontend/src/policyChatUI.jsx` (chat component, localStorage persistence of
sessions and messages), and `src/usePolicyChat.js` (React hook wiring the two).
The backend Conversational Retrieval Engine (coarse/fine retrieval, context
assembly, synthesis) is described by the specification but its code is not in
the repository; those parts are modelled from the spec and marked as such.

JavaScript platform builtins used by the source (string truthiness, `??`,
`||`, `String.prototype.trim/startsWith/slice`, `JSON.parse`, `localStorage`)
are modelled explicitly as executable Lean functions.  `localStorage` is
modelled per key: the session-id key as an `Option String`, the sessions and
per-session message keys at parsed-value level for the UI state machine, and
at raw-string level (with a genuine JSON parser model) for the claims about
`safeParse`.  Asynchronous calls are modelled by passing the external
outcome (the HTTP response) as an explicit argument to the handler, which is
faithful here because the UI guards against overlapping sends.
-/

namespace PolicyChat

/-! ## JavaScript primitive modelling -/

/-- Truthiness of a JS value that is either a string or null/undefined:
`null`, `undefined` and `""` are falsy, every other string is truthy. -/
def jsTruthy : Option String → Bool
  | none => false
  | some s => s != ""

/-- The JS nullish-coalescing operator `a ?? b` on nullable strings:
fires only on null/undefined, not on the empty string. -/
def jsNullish (a b : Option String) : Option String :=
  match a with
  | none => b
  | some s => some s

/-- The JS or-else pattern `a || b` where the result is known to be a string:
takes `a` when it is a truthy string, otherwise `b`. -/
def jsOrStr (a : Option String) (b : String) : String :=
  match a with
  | none => b
  | some s => if s != "" then s else b

/-- Model of `String.prototype.trim` (the Lean builtin is not used because the
JS source is being modelled; whitespace at both ends is removed). -/
def jsTrim (s : String) : String :=
  ⟨((s.data.dropWhile Char.isWhitespace).reverse.dropWhile Char.isWhitespace).reverse⟩

/-- Model of `String.prototype.startsWith`. -/
def jsStartsWith (s p : String) : Bool :=
  p.data.isPrefixOf s.data

/-! ## policyTransport.js -/

/-- A citation record as delivered by the backend and displayed by the UI
(`{document_id, chunk_id, file_name, chunk_part, distance}`); distances are
modelled as rationals. -/
structure Citation where
  document_id : String
  chunk_id : String
  file_name : String
  chunk_part : Nat
  distance : ℚ
deriving DecidableEq, Repr

/-- The parsed JSON body of a successful `/chat` response
(`{session_id, answer, sources}`, each possibly absent). -/
structure ChatResponse where
  session_id : Option String
  answer : Option String
  sources : Option (List Citation)
deriving DecidableEq, Repr

/-- An HTTP response as observed by `sendChatMessage`: `ok`, `status`,
the text body (empty when `res.text()` itself failed, matching the
`.catch(() => "")`), the status text, and the parsed JSON body. -/
structure HttpResponse where
  ok : Bool
  status : Nat
  bodyText : String
  statusText : String
  json : ChatResponse
deriving DecidableEq, Repr

/-- The JSON body posted to `/chat`: `session_id = none` means the field is
absent, i.e. the body is exactly `\x7bmessage\x7d`; otherwise it is exactly
`\x7bsession_id, message\x7d`.  The structure has no further fields, matching
`JSON.stringify(session_id ? \x7b session_id, message \x7d : \x7b message \x7d)`. -/
structure ChatBody where
  session_id : Option String
  message : String
deriving DecidableEq, Repr

/-- Transport `setSessionId`: `if (!id) return; localStorage.setItem(key, id)`.
The stored value under `"policyChat.sessionId"` is the second argument. -/
def setSessionIdOp (id stored : Option String) : Option String :=
  if jsTruthy id then id else stored

/-- Transport `clearSessionId`: `localStorage.removeItem(key)`. -/
def clearSessionIdOp (_stored : Option String) : Option String :=
  none

/-- Error message thrown on a non-OK response:
`Backend error (${res.status}): ${text || res.statusText}`. -/
def backendErrorMessage (res : HttpResponse) : String :=
  "Backend error (" ++ toString res.status ++ "): " ++
    (if res.bodyText != "" then res.bodyText else res.statusText)

/-- Everything observable about one `sendChatMessage` call: the request body
it posted, its result (thrown error message or parsed data), and the value of
the stored session id after the call. -/
structure SendOutcome where
  body : ChatBody
  result : Except String ChatResponse
  stored : Option String
deriving Repr

/-- `sendChatMessage(message, overrideSessionId)` from policyTransport.js:
computes `session_id = overrideSessionId ?? getSessionId()`, posts
`session_id ? \x7bsession_id, message\x7d : \x7bmessage\x7d`, throws on a
non-OK status before touching storage, and on success stores
`data.session_id` when that is truthy. -/
def sendChatMessage (message : String) (overrideSessionId stored : Option String)
    (res : HttpResponse) : SendOutcome :=
  let session_id := jsNullish overrideSessionId stored
  let body : ChatBody :=
    if jsTruthy session_id then ⟨session_id, message⟩ else ⟨none, message⟩
  if !res.ok then
    ⟨body, .error (backendErrorMessage res), stored⟩
  else
    ⟨body, .ok res.json,
      if jsTruthy res.json.session_id then res.json.session_id else stored⟩

/-! ## policyChatUI.jsx and usePolicyChat.js -/

/-- A chat message as stored by the UI: `\x7bid, role, text\x7d` for user
messages and `\x7bid, role, text, sources\x7d` for assistant messages
(`sources = none` models the absent field on user messages). -/
structure Msg where
  id : String
  role : String
  text : String
  sources : Option (List Citation)
deriving DecidableEq, Repr

/-- A sidebar session entry as persisted under `"policyChat.sessions"`:
`\x7bid, title, updatedAt\x7d`. -/
structure SessionEntry where
  id : String
  title : String
  updatedAt : String
deriving DecidableEq, Repr

/-- The combined browser state the component operates on: the three
localStorage keys (session id, session list, per-session message lists, the
latter two at parsed-value level), the hook's React session-id state, and the
component's React state (`sessions`, `activeId`, `messages`, `input`,
`isSending`, `err`). -/
structure UIState where
  storedSessionId : Option String
  storedSessions : List SessionEntry
  storedMessages : List (String × List Msg)
  hookSessionId : Option String
  sessions : List SessionEntry
  activeId : Option String
  messages : List Msg
  input : String
  isSending : Bool
  err : String
deriving DecidableEq, Repr

/-- Model of `localStorage.setItem` on a message key: replaces any entry for
that key. -/
def setAssoc (m : List (String × List Msg)) (k : String) (v : List Msg) :
    List (String × List Msg) :=
  (k, v) :: m.filter (fun p => p.1 != k)

/-- Model of `localStorage.removeItem` on a message key. -/
def removeAssoc (m : List (String × List Msg)) (k : String) :
    List (String × List Msg) :=
  m.filter (fun p => p.1 != k)

/-- `saveMessages(sessionId, messages)`: `if (!sessionId) return;` then
`setItem(MSG_KEY(sessionId), JSON.stringify(messages))`. -/
def saveMessagesOp (m : List (String × List Msg)) (sessionId : String)
    (msgs : List Msg) : List (String × List Msg) :=
  if sessionId != "" then setAssoc m sessionId msgs else m

/-- Whitespace-run collapsing used by `formatTitle`
(`.replace(/\s+/g, " ")`); the flag records whether the previous character
was part of a whitespace run already emitted as a single space. -/
def collapseWsGo : Bool → List Char → List Char
  | _, [] => []
  | prevWs, c :: cs =>
    if c.isWhitespace then
      if prevWs then collapseWsGo true cs
      else ' ' :: collapseWsGo true cs
    else c :: collapseWsGo false cs

/-- `formatTitle(text)`: trim, collapse whitespace runs, fall back to
"New chat" when empty, and truncate to 36 characters plus an ellipsis. -/
def formatTitle (text : String) : String :=
  let t : String := ⟨collapseWsGo false (jsTrim text).data⟩
  if t = "" then "New chat"
  else if t.length > 36 then (⟨t.data.take 36⟩ : String) ++ "…"
  else t

/-- `upsertSession(id, title)` body over the list read from storage: builds
`\x7bid, title: title || "New chat", updatedAt\x7d` and prepends it to the
existing entries minus any entry with the same id. -/
def upsertSession (existing : List SessionEntry) (id title now : String) :
    List SessionEntry :=
  let next : SessionEntry := ⟨id, if title != "" then title else "New chat", now⟩
  next :: existing.filter (fun s => s.id != id)

/-- State effect of `upsertSession`: reads `loadSessions()` from storage and
writes the result both to storage (`saveSessions`) and to React state
(`setSessions`). -/
def upsertSessionState (st : UIState) (id title now : String) : UIState :=
  let out := upsertSession st.storedSessions id title now
  { st with storedSessions := out, sessions := out }

/-- The hook's `setSessionIdState(id)`: updates React state unconditionally
and writes through to storage only when `id` is truthy. -/
def hookSetSessionId (st : UIState) (id : Option String) : UIState :=
  { st with hookSessionId := id,
            storedSessionId :=
              if jsTruthy id then setSessionIdOp id st.storedSessionId
              else st.storedSessionId }

/-- `startNewChat()`: resets the error, input and sending flag, clears the
stored session id via the hook, switches to a fresh provisional id
(`makeLocalId()` is passed in as `tempId`), stores it as the session id,
upserts a "New chat" sidebar entry, and empties the message list. -/
def startNewChat (st : UIState) (tempId now : String) : UIState :=
  let st1 := { st with err := "", input := "", isSending := false }
  let st2 := { st1 with storedSessionId := clearSessionIdOp st1.storedSessionId,
                        hookSessionId := none }
  let st3 := hookSetSessionId { st2 with activeId := some tempId } (some tempId)
  let st4 := upsertSessionState st3 tempId "New chat" now
  { st4 with messages := [] }

/-- The value `onSend` computes for `currentId`: the active id when truthy,
otherwise the freshly generated provisional id. -/
def effectiveCurrentId (st : UIState) (localId : String) : String :=
  match st.activeId with
  | none => localId
  | some s => if s != "" then s else localId

/-- `result?.answer || "(No answer returned)"`. -/
def jsAnswerText (a : Option String) : String :=
  match a with
  | none => "(No answer returned)"
  | some s => if s != "" then s else "(No answer returned)"

/-- `result?.sources || []` (a present empty array is kept: JS arrays are
truthy). -/
def jsSources (s : Option (List Citation)) : List Citation :=
  match s with
  | none => []
  | some l => l

/-- `onSend()` from policyChatUI.jsx as a state transition.  External
nondeterminism is passed in: `localId` is the `makeLocalId()` result used if
no session is active, `uuid1`/`uuid2` the `crypto.randomUUID()` values for
the user and assistant messages, `now` the timestamp, and `res` the HTTP
response the single `/chat` request would produce.  Returns the new state
and the request body actually posted (`none` when the guard returned without
issuing a network request). -/
def onSend (st : UIState) (localId uuid1 uuid2 now : String)
    (res : HttpResponse) : UIState × Option ChatBody :=
  let text := jsTrim st.input
  if text == "" || st.isSending then (st, none)
  else
    let st1 := { st with err := "", isSending := true, input := "" }
    let currentId := effectiveCurrentId st1 localId
    let st2 :=
      if jsTruthy st1.activeId then st1
      else
        let stA := hookSetSessionId { st1 with activeId := some currentId } (some currentId)
        upsertSessionState stA currentId (formatTitle text) now
    let userMsg : Msg := ⟨uuid1, "user", text, none⟩
    let updated := st2.messages ++ [userMsg]
    let st3 := { st2 with messages := updated,
                          storedMessages := saveMessagesOp st2.storedMessages currentId updated }
    let st4 := upsertSessionState st3 currentId (formatTitle text) now
    let sendSessionId : Option String :=
      if jsStartsWith currentId "local-" then none else some currentId
    let outcome := sendChatMessage text sendSessionId st4.storedSessionId res
    match outcome.result with
    | .error e => ({ st4 with err := e, isSending := false }, some outcome.body)
    | .ok data =>
      let st5 :=
        if jsTruthy data.session_id then
          hookSetSessionId { st4 with storedSessionId := outcome.stored } data.session_id
        else { st4 with storedSessionId := outcome.stored }
      let realId := jsOrStr data.session_id (jsOrStr sendSessionId currentId)
      let step :=
        if jsStartsWith currentId "local-" && (realId != "") && (realId != currentId) then
          let stM := setAssoc (removeAssoc st5.storedMessages currentId) realId st5.messages
          let updatedSessions := st5.storedSessions.map
            (fun s => if s.id == currentId then { s with id := realId } else s)
          (realId,
            hookSetSessionId
              { st5 with storedMessages := stM,
                         storedSessions := updatedSessions,
                         sessions := updatedSessions,
                         activeId := some realId } (some realId))
        else (currentId, st5)
      let currentId2 := step.1
      let st6 := step.2
      let assistantMsg : Msg := ⟨uuid2, "assistant", jsAnswerText data.answer, some (jsSources data.sources)⟩
      let finalMsgs := st6.messages ++ [assistantMsg]
      let st7 := { st6 with messages := finalMsgs,
                            storedMessages := saveMessagesOp st6.storedMessages currentId2 finalMsgs,
                            isSending := false }
      (st7, some outcome.body)

/-- The composer text input's `disabled` attribute (`disabled=\x7bisSending\x7d`). -/
def composerInputDisabled (st : UIState) : Bool :=
  st.isSending

/-- The send button's `disabled` attribute
(`disabled=\x7b!input.trim() || isSending\x7d`). -/
def sendButtonDisabled (st : UIState) : Bool :=
  (jsTrim st.input == "") || st.isSending

/-! ## Raw localStorage layer: safeParse / loadSessions / loadMessages

The UI claims above work at parsed-value level; `safeParse` is about raw
strings, so `JSON.parse` is modelled here as an executable parser producing
`JsValue`.  A parse failure models the exception `JSON.parse` throws. -/

/-- A JavaScript JSON value; numeric literals are kept as their source text,
which is enough for the storage claims (they are never interpreted). -/
inductive JsValue where
  | null
  | bool (b : Bool)
  | num (lit : String)
  | str (s : String)
  | arr (elems : List JsValue)
  | obj (fields : List (String × JsValue))

/-- Whether a JS value is the JSON literal `null` (the only parse result on
which `v ?? fallback` falls back, since `JSON.parse` never yields
`undefined`). -/
def JsValue.isNull : JsValue → Bool
  | .null => true
  | _ => false

/-- Consumes leading JSON whitespace. -/
def skipWs : List Char → List Char
  | [] => []
  | c :: cs => if c.isWhitespace then skipWs cs else c :: cs

/-- Value of a hexadecimal digit. -/
def hexVal (c : Char) : Option Nat :=
  if '0' ≤ c ∧ c ≤ '9' then some (c.toNat - '0'.toNat)
  else if 'a' ≤ c ∧ c ≤ 'f' then some (c.toNat - 'a'.toNat + 10)
  else if 'A' ≤ c ∧ c ≤ 'F' then some (c.toNat - 'A'.toNat + 10)
  else none

/-- Translation of a single-character JSON escape. -/
def escChar (e : Char) : Option Char :=
  if e = '"' then some '"'
  else if e = '\\' then some '\\'
  else if e = '/' then some '/'
  else if e = 'b' then some (Char.ofNat 8)
  else if e = 'f' then some (Char.ofNat 12)
  else if e = 'n' then some '\n'
  else if e = 'r' then some '\r'
  else if e = 't' then some '\t'
  else none

/-- Parses the body of a JSON string after the opening quote; returns the
decoded characters and the remainder after the closing quote.  Fuel-driven
so that the definition reduces in the kernel. -/
def parseStrBody : Nat → List Char → Option (List Char × List Char)
  | 0, _ => none
  | _ + 1, [] => none
  | fuel + 1, c :: rest =>
    if c = '"' then some ([], rest)
    else if c = '\\' then
      match rest with
      | [] => none
      | e :: rest2 =>
        if e = 'u' then
          match rest2 with
          | a :: b :: c2 :: d :: rest3 =>
            match hexVal a, hexVal b, hexVal c2, hexVal d with
            | some ha, some hb, some hc, some hd =>
              (parseStrBody fuel rest3).map
                (fun p => (Char.ofNat (((ha * 16 + hb) * 16 + hc) * 16 + hd) :: p.1, p.2))
            | _, _, _, _ => none
          | _ => none
        else
          match escChar e with
          | some ch => (parseStrBody fuel rest2).map (fun p => (ch :: p.1, p.2))
          | none => none
    else (parseStrBody fuel rest).map (fun p => (c :: p.1, p.2))

/-- Splits a leading run of decimal digits. -/
def digitSpan (cs : List Char) : List Char × List Char :=
  (cs.takeWhile Char.isDigit, cs.dropWhile Char.isDigit)

/-- Parses an optional fraction part `.digits`. -/
def parseFrac : List Char → Option (List Char × List Char)
  | '.' :: r =>
    let p := digitSpan r
    if p.1.isEmpty then none else some ('.' :: p.1, p.2)
  | cs => some ([], cs)

/-- Parses an optional exponent part `e[+-]?digits`. -/
def parseExp : List Char → Option (List Char × List Char)
  | [] => some ([], [])
  | c :: r =>
    if c = 'e' ∨ c = 'E' then
      let sp : List Char × List Char :=
        match r with
        | s :: r2 => if s = '+' ∨ s = '-' then ([s], r2) else ([], s :: r2)
        | [] => ([], [])
      let dp := digitSpan sp.2
      if dp.1.isEmpty then none else some (c :: (sp.1 ++ dp.1), dp.2)
    else some ([], c :: r)

/-- Parses a JSON number literal, returning its source text and the rest. -/
def parseNum (cs : List Char) : Option (List Char × List Char) :=
  let sp : List Char × List Char :=
    match cs with
    | '-' :: r => (['-'], r)
    | _ => ([], cs)
  let dp := digitSpan sp.2
  if dp.1.isEmpty then none
  else
    match parseFrac dp.2 with
    | none => none
    | some fp =>
      match parseExp fp.2 with
      | none => none
      | some ep => some (sp.1 ++ dp.1 ++ fp.1 ++ ep.1, ep.2)

/-- Parses comma-separated array items up to the closing bracket, given a
parser for one value. -/
def parseItemsWith (pv : List Char → Option (JsValue × List Char)) :
    Nat → List Char → List JsValue → Option (List JsValue × List Char)
  | 0, _, _ => none
  | fuel + 1, cs, acc =>
    match pv cs with
    | none => none
    | some (v, rest) =>
      match skipWs rest with
      | ',' :: rest2 => parseItemsWith pv fuel rest2 (v :: acc)
      | ']' :: rest2 => some ((v :: acc).reverse, rest2)
      | _ => none

/-- Parses comma-separated `"key": value` object fields up to the closing
brace, given a parser for one value. -/
def parseFieldsWith (pv : List Char → Option (JsValue × List Char)) :
    Nat → List Char → List (String × JsValue) →
    Option (List (String × JsValue) × List Char)
  | 0, _, _ => none
  | fuel + 1, cs, acc =>
    match skipWs cs with
    | '"' :: rest =>
      match parseStrBody (rest.length + 1) rest with
      | none => none
      | some (key, rest2) =>
        match skipWs rest2 with
        | ':' :: rest3 =>
          match pv rest3 with
          | none => none
          | some (v, rest4) =>
            match skipWs rest4 with
            | ',' :: rest5 => parseFieldsWith pv fuel rest5 ((⟨key⟩, v) :: acc)
            | '\x7d' :: rest5 => some (((⟨key⟩, v) :: acc).reverse, rest5)
            | _ => none
        | _ => none
    | _ => none

/-- Parses one JSON value, returning it and the unconsumed remainder. -/
def parseVal : Nat → List Char → Option (JsValue × List Char)
  | 0, _ => none
  | fuel + 1, cs =>
    match skipWs cs with
    | 'n' :: 'u' :: 'l' :: 'l' :: rest => some (.null, rest)
    | 't' :: 'r' :: 'u' :: 'e' :: rest => some (.bool true, rest)
    | 'f' :: 'a' :: 'l' :: 's' :: 'e' :: rest => some (.bool false, rest)
    | '"' :: rest => (parseStrBody (rest.length + 1) rest).map (fun p => (.str ⟨p.1⟩, p.2))
    | '[' :: rest =>
      (match skipWs rest with
       | ']' :: rest2 => some (.arr [], rest2)
       | cs2 => (parseItemsWith (parseVal fuel) fuel cs2 []).map (fun p => (.arr p.1, p.2)))
    | '\x7b' :: rest =>
      (match skipWs rest with
       | '\x7d' :: rest2 => some (.obj [], rest2)
       | cs2 => (parseFieldsWith (parseVal fuel) fuel cs2 []).map (fun p => (.obj p.1, p.2)))
    | cs2 => (parseNum cs2).map (fun p => (.num ⟨p.1⟩, p.2))

/-- Model of `JSON.parse` on a string: `none` models the thrown
`SyntaxError` on malformed input; trailing non-whitespace is also an
error. -/
def jsonParse (s : String) : Option JsValue :=
  match parseVal (s.length + 1) s.data with
  | some (v, rest) => if (skipWs rest).isEmpty then some v else none
  | none => none

/-- Model of `JSON.parse(localStorage.getItem(key))`: `getItem` returns
`null` for an absent key, which `JSON.parse` coerces to the string
`"null"` and parses to the JSON value `null`. -/
def jsonParseRaw (raw : Option String) : Option JsValue :=
  jsonParse (match raw with | none => "null" | some s => s)

/-- `safeParse(json, fallback)`: `try \x7b const v = JSON.parse(json); return
v ?? fallback; \x7d catch \x7b return fallback; \x7d` — total by construction:
a parse failure (the modelled exception) and a `null` parse result both give
the fallback. -/
def safeParse (raw : Option String) (fallback : JsValue) : JsValue :=
  match jsonParseRaw raw with
  | none => fallback
  | some v => if v.isNull then fallback else v

/-- `loadSessions()` over the raw string stored under
`"policyChat.sessions"`. -/
def loadSessionsJson (store : String → Option String) : JsValue :=
  safeParse (store "policyChat.sessions") (.arr [])

/-- `MSG_KEY(id)`. -/
def msgKey (id : String) : String :=
  "policyChat.messages." ++ id

/-- `loadMessages(sessionId)` over raw stored strings:
`if (!sessionId) return [];` then `safeParse(getItem(MSG_KEY(sessionId)), [])`. -/
def loadMessagesJson (sessionId : Option String) (store : String → Option String) : JsValue :=
  if !(jsTruthy sessionId) then .arr []
  else safeParse (store (msgKey (match sessionId with | some s => s | none => ""))) (.arr [])

/-- The session-id key invariant claimed for `"policyChat.sessionId"`: the
key is absent or holds a non-empty string. -/
def validStoredSessionId (v : Option String) : Prop :=
  v = none ∨ ∃ s, v = some s ∧ s ≠ ""

/-- Storage effect of the hook's guarded write `if (id) setSessionId(id)`
(used both by `setSessionIdState` and by the `useEffect` sync). -/
def hookGuardedSet (id stored : Option String) : Option String :=
  if jsTruthy id then setSessionIdOp id stored else stored

/-! ## Conversational Retrieval Engine (modelled from the spec)

The engine's code (FastAPI/LangChain backend) is not part of the repository;
everything in this section is modelled from the specification's component
contracts (§4.2–§4.6, §2 data flow).  External capabilities — embedding
distances and the language model — are passed in as function arguments. -/

/-- Modelled from the spec: a coarse retrieval unit
(`Section \x7bid, document_id, embedding, order_index\x7d`, §3); the embedding
itself lives behind the vector-store boundary, so only the metadata is
carried. -/
structure CorpusSection where
  id : String
  document_id : String
  order_index : Nat
deriving DecidableEq, Repr

/-- Modelled from the spec: a fine retrieval unit
(`Chunk \x7bid, document_id, section_id, text, embedding, order_index\x7d`, §3). -/
structure Chunk where
  id : String
  document_id : String
  section_id : String
  text : String
  order_index : Nat
deriving DecidableEq, Repr

/-- Modelled from the spec: a turn of the session history
(`\x7brole, text, timestamp, sources\x7d`, §3). -/
structure Turn where
  role : String
  text : String
  timestamp : String
  sources : List Citation
deriving DecidableEq, Repr

/-- Modelled from the spec: the transient context bundle (§3, §4.5): chunks
paired with their citations plus the abstention flag. -/
structure ContextBundle where
  items : List (Chunk × Citation)
  abstain : Bool
deriving DecidableEq, Repr

/-- Stable insertion of an element into a sorted list (used to realise the
spec's deterministic ascending order with explicit tie-breaks). -/
def insertByLe {α : Type} (le : α → α → Bool) (x : α) : List α → List α
  | [] => [x]
  | y :: ys => if le x y then x :: y :: ys else y :: insertByLe le x ys

/-- Insertion sort by a boolean comparator; fully executable so retrieval
results can be evaluated on concrete corpora. -/
def sortByLe {α : Type} (le : α → α → Bool) : List α → List α
  | [] => []
  | x :: xs => insertByLe le x (sortByLe le xs)

/-- Ascending distance with ties broken by `order_index` ascending, for
section-level results (§4.3). -/
def sectionOrder (a b : CorpusSection × ℚ) : Bool :=
  decide (a.2 < b.2 ∨ (a.2 = b.2 ∧ a.1.order_index ≤ b.1.order_index))

/-- Ascending distance with ties broken by `order_index` ascending, for
chunk-level results (§4.4, same tie-break rule as §4.3). -/
def chunkOrder (a b : Chunk × ℚ) : Bool :=
  decide (a.2 < b.2 ∨ (a.2 = b.2 ∧ a.1.order_index ≤ b.1.order_index))

/-- Modelled from the spec: `coarse_search(query, k)` (§4.3) — keeps the
sections within the distance threshold, orders ascending by distance with
the stable tie-break, takes the top `k`, and returns their ids as the
candidate scope.  `secDist` stands for the external embedding/vector-store
call producing the query-to-section distance. -/
def coarse_search (sections : List CorpusSection) (secDist : CorpusSection → ℚ)
    (k : Nat) (threshold : ℚ) : List String :=
  (((sections.filter (fun s => decide (secDist s ≤ threshold))).map
      (fun s => (s, secDist s))
    |> sortByLe sectionOrder).take k).map (fun p => p.1.id)

/-- Modelled from the spec: `fine_search(query, candidate_scope, n)` (§4.4)
— empty scope short-circuits to empty (abstention trigger, not an error);
otherwise a hard filter restricts chunks to the candidate scope before
ranking ascending by distance and taking the top `n`. -/
def fine_search (corpus : List Chunk) (chunkDist : Chunk → ℚ)
    (candidate_scope : List String) (n : Nat) : List (Chunk × ℚ) :=
  if candidate_scope.isEmpty then []
  else
    ((corpus.filter (fun c => candidate_scope.contains c.section_id)).map
        (fun c => (c, chunkDist c))
      |> sortByLe chunkOrder).take n

/-- Drops results whose chunk id was already seen (defensive deduplication,
§4.5). -/
def dedupeById (seen : List String) : List (Chunk × ℚ) → List (Chunk × ℚ)
  | [] => []
  | p :: rest =>
    if seen.contains p.1.id then dedupeById seen rest
    else p :: dedupeById (p.1.id :: seen) rest

/-- Greedy budget selection in ascending-distance order: a chunk is included
only when its whole text fits the remaining budget; excluded chunks are
dropped, never truncated (§4.5). -/
def budgetTake (budget : Nat) : Nat → List (Chunk × ℚ) → List (Chunk × ℚ)
  | _, [] => []
  | used, p :: rest =>
    if used + p.1.text.length ≤ budget then
      p :: budgetTake budget (used + p.1.text.length) rest
    else budgetTake budget used rest

/-- Presentation order `(document_id, order_index)` ascending (§4.5). -/
def presentOrder (a b : Chunk × ℚ) : Bool :=
  decide (a.1.document_id < b.1.document_id ∨
    (a.1.document_id = b.1.document_id ∧ a.1.order_index ≤ b.1.order_index))

/-- Modelled from the spec: one Citation per included chunk, carrying the
distance and `chunk_part = order_index` (§4.5); `fileNameOf` is the
read-only corpus metadata lookup from document id to file name. -/
def mkCitation (fileNameOf : String → String) (p : Chunk × ℚ) : Citation :=
  ⟨p.1.document_id, p.1.id, fileNameOf p.1.document_id, p.1.order_index, p.2⟩

/-- Modelled from the spec: `assemble(results, budget)` (§4.5) — empty
results give `abstain = true`; otherwise deduplicate by chunk id, include
greedily in ascending-distance order within the budget, and present in
original document order with one citation per chunk. -/
def assemble (fileNameOf : String → String) (results : List (Chunk × ℚ))
    (budget : Nat) : ContextBundle :=
  if results.isEmpty then ⟨[], true⟩
  else
    let dedup := dedupeById [] results
    let picked := budgetTake budget 0 (sortByLe chunkOrder dedup)
    let presented := sortByLe presentOrder picked
    ⟨presented.map (fun p => (p.1, mkCitation fileNameOf p)), false⟩

/-- Modelled from the spec: the fixed non-fabricating abstention response
(§4.6). -/
def abstentionText : String :=
  "I do not have information on that in the policy set."

/-- The stable reference token for the `i`-th context chunk (§4.6). -/
def refToken (i : Nat) : String :=
  "[S" ++ toString i ++ "]"

/-- Substring test used to detect which reference tokens the model output
actually used. -/
def containsSubstr (s sub : String) : Bool :=
  decide (sub.data <:+: s.data)

/-- Modelled from the spec: the synthesis prompt — the standalone query, the
ordered chunk texts with stable reference tokens, and the grounding
directive (§4.6). -/
def buildPrompt (query : String) (items : List (Chunk × Citation)) : String :=
  "Answer only from the supplied text and cite the reference tokens used.\n" ++
  "Question: " ++ query ++ "\n" ++
  String.join ((items.enum.map
    (fun p => refToken p.1 ++ " " ++ p.2.1.text ++ "\n")))

/-- What one synthesis run produced: the answer text, the citations kept
after grounding post-processing, and how many language-model synthesis
calls were made. -/
structure SynthesisOutput where
  text : String
  citations : List Citation
  llmCalls : Nat
deriving DecidableEq, Repr

/-- Modelled from the spec: `synthesize(query, bundle, history)` (§4.6) — on
`abstain` returns the fixed abstention text with no citations and never
calls the language model; otherwise makes one `llm` call and keeps exactly
the citations whose reference token occurs in the output (grounding
precision).  The retry-on-failure path is outside this model: `llm` stands
for the language-model boundary's eventual successful completion. -/
def synthesize (llm : String → String) (query : String) (bundle : ContextBundle) :
    SynthesisOutput :=
  if bundle.abstain then ⟨abstentionText, [], 0⟩
  else
    let out := llm (buildPrompt query bundle.items)
    let cits := (bundle.items.enum.filter
      (fun p => containsSubstr out (refToken p.1))).map (fun p => p.2.2)
    ⟨out, cits, 1⟩

/-- Modelled from the spec: `rewrite(history, latest_message)` (§4.2) —
identity on empty history; otherwise delegates to the language model,
falling back to the identity rewrite when that call failed
(`llmRewrite = none`). -/
def rewriteQuery (history : List Turn) (latest : String)
    (llmRewrite : Option String) : String :=
  if history.isEmpty then latest
  else
    match llmRewrite with
    | some q => q
    | none => latest

/-- The caller-visible outcome of one pipeline run, with the number of
language-model synthesis calls made. -/
structure HandleResult where
  answer : String
  sources : List Citation
  synthesisCalls : Nat
deriving DecidableEq, Repr

/-- Modelled from the spec: the per-message pipeline of the Session
Orchestrator (§2 data flow): rewrite → coarse search → fine search →
assemble → synthesize, returning the answer, its sources, and the synthesis
call count. -/
def handleMessage (sections : List CorpusSection) (chunks : List Chunk)
    (secDist : CorpusSection → ℚ) (chunkDist : Chunk → ℚ)
    (fileNameOf : String → String) (llm : String → String)
    (llmRewrite : Option String) (k n : Nat) (threshold : ℚ) (budget : Nat)
    (history : List Turn) (message : String) : HandleResult :=
  let query := rewriteQuery history message llmRewrite
  let scope := coarse_search sections secDist k threshold
  let results := fine_search chunks chunkDist scope n
  let bundle := assemble fileNameOf results budget
  let syn := synthesize llm query bundle
  ⟨syn.text, syn.citations, syn.llmCalls⟩

/-! ## Concrete fixtures used by witnesses and counterexamples -/

/-- A browser state with empty storage and no active session. -/
def initUIState : UIState :=
  ⟨none, [], [], none, [], none, [], "", false, ""⟩

/-- A successful `/chat` response assigning the server id `"srv-1"`. -/
def okResponse : HttpResponse :=
  ⟨true, 200, "", "OK", ⟨some "srv-1", some "An answer.", some []⟩⟩

/-- A failed `/chat` response (upstream unavailable). -/
def errResponse : HttpResponse :=
  ⟨false, 503, "vector store down", "Service Unavailable", ⟨none, none, none⟩⟩

/-- A state in the middle of a provisional session `"local-7"`: the UI has
set both the active id and the stored id to the provisional id, and the user
has typed `"hi"`. -/
def provisionalState : UIState :=
  ⟨some "local-7", [⟨"local-7", "hi", "t0"⟩], [("local-7", [])],
   some "local-7", [⟨"local-7", "hi", "t0"⟩], some "local-7", [], "hi", false, ""⟩

/-- A state whose composer holds only whitespace. -/
def blankInputState : UIState :=
  { initUIState with input := "   " }

/-- A state with a send already in flight. -/
def inflightState : UIState :=
  { initUIState with input := "next message", isSending := true }

/-- A state with a pending non-empty input and no send in flight. -/
def readyState : UIState :=
  { initUIState with input := "hi" }

/-- A one-chunk corpus member used to exercise the fine retriever. -/
def chunkA : Chunk :=
  ⟨"c1", "d1", "s1", "Alcohol is regulated.", 0⟩

/-! ## Theorems

Helper lemmas come first; the claim theorems and their witnesses follow. -/

theorem lookup_eq_none_of_keys_ne {β : Type} {M : List (String × β)} {k : String}
    (h : ∀ p ∈ M, p.1 ≠ k) : List.lookup k M = none := by
  induction M with
  | nil => rfl
  | cons p t ih =>
    have hp : p.1 ≠ k := h p (List.mem_cons_self p t)
    have hb : (k == p.1) = false := by
      simp [beq_eq_false_iff_ne]
      exact fun hh => hp hh.symm
    simp [List.lookup, hb]
    intro a b hab hka
    exact h (a, b) (List.mem_cons_of_mem p hab) hka.symm

theorem keys_ne_of_filter_ne {β : Type} (M : List (String × β)) (k : String) :
    ∀ p ∈ M.filter (fun p => p.1 != k), p.1 ≠ k := by
  intro p hp
  have := (List.mem_filter.mp hp).2
  simpa [bne_iff_ne] using this

theorem exists_rekeyed (l : List SessionEntry) (c r t n : String) :
    ∃ a ∈ upsertSession l c t n, (if a.id = c then { a with id := r } else a).id = r := by
  refine ⟨⟨c, if t != "" then t else "New chat", n⟩, ?_, ?_⟩
  · simp [upsertSession]
  · simp

theorem rekeyed_ne (l : List SessionEntry) (c r t n : String) (hrc : r ≠ c) :
    ∀ x ∈ upsertSession l c t n, ¬(if x.id = c then { x with id := r } else x).id = c := by
  intro x hx
  by_cases hxid : x.id = c
  · simp [hxid, hrc]
  · simp [hxid]

theorem onSend_ok_stores_sid (st : UIState) (localId u1 u2 now sid : String)
    (res : HttpResponse) (hok : res.ok = true) (hsid : res.json.session_id = some sid)
    (hne : sid ≠ "") (htxt : jsTrim st.input ≠ "") (hsend : st.isSending = false) :
    (onSend st localId u1 u2 now res).1.storedSessionId = some sid ∧
    (onSend st localId u1 u2 now res).1.hookSessionId = some sid := by
  have hguard : (jsTrim st.input == "" || st.isSending) = false := by
    rw [hsend]; simp [htxt]
  unfold onSend
  by_cases hact : jsTruthy st.activeId = true <;>
    simp only [hguard, Bool.false_eq_true, if_false, hact, if_true, Bool.true_eq_false] <;>
    simp [sendChatMessage, hok, hsid, jsTruthy, hne, jsOrStr,
          upsertSessionState, hookSetSessionId, setSessionIdOp, saveMessagesOp] <;>
    split <;>
    simp [hookSetSessionId, setSessionIdOp, jsTruthy, hne]

theorem onSend_ok_rekeys (st : UIState) (localId u1 u2 now sid : String)
    (res : HttpResponse) (hok : res.ok = true) (hsid : res.json.session_id = some sid)
    (hne : sid ≠ "") (htxt : jsTrim st.input ≠ "") (hsend : st.isSending = false)
    (hloc : jsStartsWith (effectiveCurrentId st localId) "local-" = true)
    (hnec : sid ≠ effectiveCurrentId st localId) :
    (onSend st localId u1 u2 now res).1.activeId = some sid ∧
    List.lookup (effectiveCurrentId st localId)
      (onSend st localId u1 u2 now res).1.storedMessages = none ∧
    List.lookup sid (onSend st localId u1 u2 now res).1.storedMessages =
      some (st.messages ++ [⟨u1, "user", jsTrim st.input, none⟩,
        ⟨u2, "assistant", jsAnswerText res.json.answer, some (jsSources res.json.sources)⟩]) ∧
    sid ∈ ((onSend st localId u1 u2 now res).1.sessions.map SessionEntry.id) ∧
    effectiveCurrentId st localId ∉
      ((onSend st localId u1 u2 now res).1.sessions.map SessionEntry.id) := by
  have hguard : (jsTrim st.input == "" || st.isSending) = false := by
    rw [hsend]; simp [htxt]
  have hbne1 : (sid != "") = true := by simp [hne]
  unfold onSend
  rcases hsta : st.activeId with _ | a
  · simp only [effectiveCurrentId, hsta] at hloc hnec
    have hlne : localId ≠ "" := by
      intro h
      rw [h] at hloc
      exact absurd hloc (by decide)
    have hbne2 : (sid != localId) = true := by simp [hnec]
    simp only [hguard, Bool.false_eq_true, if_false]
    simp [sendChatMessage, hok, hsid, jsTruthy, hne, jsOrStr, hsta, effectiveCurrentId,
          upsertSessionState, hookSetSessionId, setSessionIdOp, saveMessagesOp,
          hloc, hbne1, hbne2, setAssoc, removeAssoc, hlne]
    refine ⟨⟨fun h => hnec h.symm, ?_⟩, ?_, ?_⟩
    · intro a b _ _ h2
      exact fun he => h2 he.symm
    · exact exists_rekeyed _ _ _ _ _
    · exact rekeyed_ne _ _ _ _ _ hnec
  · by_cases ha : (a != "") = true
    · simp only [effectiveCurrentId, hsta, ha, if_true] at hloc hnec
      have hane : a ≠ "" := by simpa using ha
      have hbne2 : (sid != a) = true := by simp [hnec]
      simp only [hguard, Bool.false_eq_true, if_false]
      simp [sendChatMessage, hok, hsid, jsTruthy, hne, jsOrStr, hsta, effectiveCurrentId, ha,
            upsertSessionState, hookSetSessionId, setSessionIdOp, saveMessagesOp,
            hloc, hbne1, hbne2, setAssoc, removeAssoc, hane]
      refine ⟨⟨fun h => hnec h.symm, ?_⟩, ?_, ?_⟩
      · intro a1 b _ _ h2
        exact fun he => h2 he.symm
      · exact exists_rekeyed _ _ _ _ _
      · exact rekeyed_ne _ _ _ _ _ hnec
    · have ha0 : a = "" := by simpa using ha
      subst ha0
      simp only [effectiveCurrentId, hsta] at hloc hnec
      simp only [bne_self_eq_false, Bool.false_eq_true, if_false] at hloc hnec
      have hlne : localId ≠ "" := by
        intro h
        rw [h] at hloc
        exact absurd hloc (by decide)
      have hbne2 : (sid != localId) = true := by simp [hnec]
      simp only [hguard, Bool.false_eq_true, if_false]
      simp [sendChatMessage, hok, hsid, jsTruthy, hne, jsOrStr, hsta, effectiveCurrentId,
            upsertSessionState, hookSetSessionId, setSessionIdOp, saveMessagesOp,
            hloc, hbne1, hbne2, setAssoc, removeAssoc, hlne]
      refine ⟨⟨fun h => hnec h.symm, ?_⟩, ?_, ?_⟩
      · intro a1 b _ _ h2
        exact fun he => h2 he.symm
      · exact exists_rekeyed _ _ _ _ _
      · exact rekeyed_ne _ _ _ _ _ hnec

theorem mem_insertByLe {α : Type} (le : α → α → Bool) (x a : α) (l : List α) :
    a ∈ insertByLe le x l ↔ a = x ∨ a ∈ l := by
  induction l with
  | nil => simp [insertByLe]
  | cons y ys ih =>
    by_cases h : le x y = true <;> simp [insertByLe, h, ih] <;> tauto

theorem mem_sortByLe {α : Type} (le : α → α → Bool) (a : α) (l : List α) :
    a ∈ sortByLe le l ↔ a ∈ l := by
  induction l with
  | nil => simp [sortByLe]
  | cons x xs ih => simp [sortByLe, mem_insertByLe, ih]

/-- C1: the claim says a provisional ("local-"-prefixed) session id is never
transmitted as `session_id`; the code violates it.  Starting from a fresh
"new chat" (which stores the provisional id), `onSend` passes `null` as the
override, but `overrideSessionId ?? getSessionId()` falls back to the stored
provisional id, so the posted body carries `session_id = "local-42"`. -/
theorem provisional_session_id_transmitted :
    (onSend { startNewChat initUIState "local-42" "t0" with input := "hi" }
      "local-99" "u1" "u2" "t1" okResponse).2 =
      some ⟨some "local-42", "hi"⟩ := by
  decide

/-- C2: on a successful response carrying a `session_id`, the client adopts
the server id — it becomes the stored session id (transport and hook) — and
when the previously active id was provisional, the active id switches to the
server id, the provisional message key is removed, the messages are re-keyed
under the server id, and the session entry is re-keyed (the server id
appears among the sidebar ids and the provisional id no longer does). -/
theorem onSend_adopts_server_session_id (st : UIState)
    (localId u1 u2 now sid : String) (res : HttpResponse)
    (hok : res.ok = true) (hsid : res.json.session_id = some sid)
    (hne : sid ≠ "") (htxt : jsTrim st.input ≠ "") (hsend : st.isSending = false) :
    ((onSend st localId u1 u2 now res).1.storedSessionId = some sid ∧
     (onSend st localId u1 u2 now res).1.hookSessionId = some sid) ∧
    (jsStartsWith (effectiveCurrentId st localId) "local-" = true →
     sid ≠ effectiveCurrentId st localId →
      (onSend st localId u1 u2 now res).1.activeId = some sid ∧
      List.lookup (effectiveCurrentId st localId)
        (onSend st localId u1 u2 now res).1.storedMessages = none ∧
      List.lookup sid (onSend st localId u1 u2 now res).1.storedMessages =
        some (st.messages ++ [⟨u1, "user", jsTrim st.input, none⟩,
          ⟨u2, "assistant", jsAnswerText res.json.answer, some (jsSources res.json.sources)⟩]) ∧
      sid ∈ ((onSend st localId u1 u2 now res).1.sessions.map SessionEntry.id) ∧
      effectiveCurrentId st localId ∉
        ((onSend st localId u1 u2 now res).1.sessions.map SessionEntry.id)) :=
  ⟨onSend_ok_stores_sid st localId u1 u2 now sid res hok hsid hne htxt hsend,
   fun hloc hnec =>
     onSend_ok_rekeys st localId u1 u2 now sid res hok hsid hne htxt hsend hloc hnec⟩

/-- C2 witness: concrete run from a provisional session `"local-7"`; the
server id `"srv-1"` is adopted, the provisional message key disappears, and
the sidebar entry is re-keyed. -/
theorem onSend_adopts_server_session_id_witness :
    (onSend provisionalState "local-99" "u1" "u2" "t1" okResponse).1.storedSessionId =
      some "srv-1" ∧
    (onSend provisionalState "local-99" "u1" "u2" "t1" okResponse).1.activeId =
      some "srv-1" ∧
    List.lookup "local-7"
      (onSend provisionalState "local-99" "u1" "u2" "t1" okResponse).1.storedMessages = none :=
  ⟨(onSend_adopts_server_session_id provisionalState "local-99" "u1" "u2" "t1" "srv-1"
      okResponse rfl rfl (by decide) (by decide) rfl).1.1,
   ((onSend_adopts_server_session_id provisionalState "local-99" "u1" "u2" "t1" "srv-1"
      okResponse rfl rfl (by decide) (by decide) rfl).2 (by decide) (by decide)).1,
   (((onSend_adopts_server_session_id provisionalState "local-99" "u1" "u2" "t1" "srv-1"
      okResponse rfl rfl (by decide) (by decide) rfl).2 (by decide) (by decide)).2).1⟩

/-- C3: when the trimmed input is empty, `onSend` returns before doing
anything: the entire state (messages, sessions, stored session id, all of
it) is unchanged and no request body is produced. -/
theorem onSend_empty_input_noop (st : UIState) (localId u1 u2 now : String)
    (res : HttpResponse) (h : jsTrim st.input = "") :
    onSend st localId u1 u2 now res = (st, none) := by
  unfold onSend
  simp [h]

/-- C3 witness: a whitespace-only composer input leaves the state untouched
and sends nothing. -/
theorem onSend_empty_input_noop_witness :
    onSend blankInputState "l" "u1" "u2" "t" okResponse = (blankInputState, none) :=
  onSend_empty_input_noop blankInputState "l" "u1" "u2" "t" okResponse (by decide)

/-- C4: the body `sendChatMessage` posts is exactly
`\x7bsession_id, message\x7d` when the available id
(`overrideSessionId ?? getSessionId()`) is a non-empty string and exactly
`\x7bmessage\x7d` otherwise, with `message` equal to the caller's string
(`ChatBody` has no other fields). -/
theorem sendChatMessage_body_exact (message : String) (override stored : Option String)
    (res : HttpResponse) :
    (sendChatMessage message override stored res).body.message = message ∧
    (∀ s : String, jsNullish override stored = some s → s ≠ "" →
      (sendChatMessage message override stored res).body = ⟨some s, message⟩) ∧
    ((jsNullish override stored = none ∨ jsNullish override stored = some "") →
      (sendChatMessage message override stored res).body = ⟨none, message⟩) := by
  have hbody : (sendChatMessage message override stored res).body =
      (if jsTruthy (jsNullish override stored) then ⟨jsNullish override stored, message⟩
       else (⟨none, message⟩ : ChatBody)) := by
    unfold sendChatMessage
    by_cases h : res.ok <;> simp [h]
  refine ⟨?_, ?_, ?_⟩
  · rw [hbody]; split <;> rfl
  · intro s hs hne
    rw [hbody, hs]
    simp [jsTruthy, hne]
  · intro h
    rcases h with h | h <;> rw [hbody, h] <;> simp [jsTruthy]

/-- C4 witness: with a stored id the body carries it; with no id at all the
body is just the message. -/
theorem sendChatMessage_body_exact_witness :
    (sendChatMessage "hello" (some "sid-1") none okResponse).body =
      ⟨some "sid-1", "hello"⟩ ∧
    (sendChatMessage "hello" none none okResponse).body = ⟨none, "hello"⟩ :=
  ⟨(sendChatMessage_body_exact "hello" (some "sid-1") none okResponse).2.1 "sid-1" rfl
      (by decide),
   (sendChatMessage_body_exact "hello" none none okResponse).2.2 (Or.inl rfl)⟩

/-- C5: on a non-OK response `sendChatMessage` throws an error whose message
contains the numeric status code and leaves the stored session id exactly as
it was, and `onSend` then only sets the error banner: the message list gains
the user message appended before the request and no assistant message. -/
theorem sendChatMessage_nonOk_error (st : UIState) (localId u1 u2 now : String)
    (res : HttpResponse) (hok : res.ok = false)
    (htxt : jsTrim st.input ≠ "") (hsend : st.isSending = false) :
    (∃ a b, backendErrorMessage res = a ++ toString res.status ++ b) ∧
    (∀ (m : String) (o s : Option String),
        (sendChatMessage m o s res).stored = s ∧
        (sendChatMessage m o s res).result = .error (backendErrorMessage res)) ∧
    (onSend st localId u1 u2 now res).1.err = backendErrorMessage res ∧
    (onSend st localId u1 u2 now res).1.isSending = false ∧
    (onSend st localId u1 u2 now res).1.messages =
      st.messages ++ [⟨u1, "user", jsTrim st.input, none⟩] := by
  have hguard : (jsTrim st.input == "" || st.isSending) = false := by
    rw [hsend]
    simp [htxt]
  refine ⟨⟨"Backend error (",
      "): " ++ (if res.bodyText != "" then res.bodyText else res.statusText), ?_⟩, ?_, ?_⟩
  · simp [backendErrorMessage, String.append_assoc]
  · intro m o s
    constructor <;> simp [sendChatMessage, hok]
  · unfold onSend
    by_cases hact : jsTruthy st.activeId = true <;>
      simp [hguard, hact, sendChatMessage, hok, upsertSessionState, hookSetSessionId,
            saveMessagesOp]

/-- C5 witness: a 503 response yields the thrown message, an untouched
stored id, and a message list ending in the user turn only. -/
theorem sendChatMessage_nonOk_error_witness :
    (∃ a b, backendErrorMessage errResponse = a ++ toString errResponse.status ++ b) ∧
    (sendChatMessage "hi" none (some "srv-1") errResponse).stored = some "srv-1" ∧
    (onSend readyState "l" "u1" "u2" "t" errResponse).1.err =
      backendErrorMessage errResponse :=
  ⟨(sendChatMessage_nonOk_error readyState "l" "u1" "u2" "t" errResponse rfl
      (by decide) rfl).1,
   ((sendChatMessage_nonOk_error readyState "l" "u1" "u2" "t" errResponse rfl
      (by decide) rfl).2.1 "hi" none (some "srv-1")).1,
   (sendChatMessage_nonOk_error readyState "l" "u1" "u2" "t" errResponse rfl
      (by decide) rfl).2.2.1⟩

/-- C6: while a send is in flight, a further `onSend` invocation is a
complete no-op (state unchanged, no request), and both the composer input
and the send button are disabled. -/
theorem onSend_inflight_noop (st : UIState) (localId u1 u2 now : String)
    (res : HttpResponse) (h : st.isSending = true) :
    onSend st localId u1 u2 now res = (st, none) ∧
    composerInputDisabled st = true ∧ sendButtonDisabled st = true := by
  refine ⟨?_, ?_, ?_⟩ <;>
    simp [onSend, composerInputDisabled, sendButtonDisabled, h]

/-- C6 witness: with `isSending` set, a pending non-empty input still
results in no state change, no request, and disabled controls. -/
theorem onSend_inflight_noop_witness :
    onSend inflightState "l" "u1" "u2" "t" okResponse = (inflightState, none) ∧
    composerInputDisabled inflightState = true ∧
    sendButtonDisabled inflightState = true :=
  onSend_inflight_noop inflightState "l" "u1" "u2" "t" okResponse rfl

/-- C7: when coarse retrieval yields an empty candidate set, the end-to-end
pipeline answers with exactly the fixed abstention text, an empty sources
sequence, and zero language-model synthesis calls. -/
theorem handleMessage_abstains_on_empty_coarse (sections : List CorpusSection)
    (chunks : List Chunk) (secDist : CorpusSection → ℚ) (chunkDist : Chunk → ℚ)
    (fileNameOf : String → String) (llm : String → String)
    (llmRewrite : Option String) (k n : Nat) (threshold : ℚ) (budget : Nat)
    (history : List Turn) (message : String)
    (h : coarse_search sections secDist k threshold = []) :
    handleMessage sections chunks secDist chunkDist fileNameOf llm llmRewrite
      k n threshold budget history message = ⟨abstentionText, [], 0⟩ := by
  unfold handleMessage
  simp [h, fine_search, assemble, synthesize]

/-- C7 witness: an empty section corpus makes coarse retrieval empty, and
the pipeline abstains without calling the model. -/
theorem handleMessage_abstains_on_empty_coarse_witness :
    handleMessage [] [chunkA] (fun _ => 0) (fun _ => 0) (fun _ => "f")
      (fun _ => "out") none 3 5 1 100 [] "What is the alcohol policy?" =
      ⟨abstentionText, [], 0⟩ :=
  handleMessage_abstains_on_empty_coarse [] [chunkA] (fun _ => 0) (fun _ => 0)
    (fun _ => "f") (fun _ => "out") none 3 5 1 100 [] "What is the alcohol policy?" rfl

/-- C8: for a non-empty candidate scope, every chunk the fine retriever
returns has its `section_id` inside that scope — fine search never ranks or
returns chunks outside what coarse search selected. -/
theorem fine_search_containment (corpus : List Chunk) (chunkDist : Chunk → ℚ)
    (scope : List String) (n : Nat) (hscope : scope ≠ [])
    (p : Chunk × ℚ) (hp : p ∈ fine_search corpus chunkDist scope n) :
    p.1.section_id ∈ scope := by
  unfold fine_search at hp
  have h0 : scope.isEmpty = false := by
    simpa using hscope
  rw [h0] at hp
  simp only [Bool.false_eq_true, if_false] at hp
  have hp2 := List.mem_of_mem_take hp
  rw [mem_sortByLe] at hp2
  rw [List.mem_map] at hp2
  obtain ⟨c, hc, rfl⟩ := hp2
  have := (List.mem_filter.mp hc).2
  simpa using this

/-- C8 witness: a one-chunk corpus scoped to its own section; the returned
result's section id is in the scope. -/
theorem fine_search_containment_witness :
    (chunkA, (1 : ℚ)).1.section_id ∈ ["s1"] :=
  fine_search_containment [chunkA] (fun _ => 1) ["s1"] 5 (by decide)
    (chunkA, 1) (by decide)

/-- C9: `safeParse` (and with it `loadSessions`/`loadMessages`) is total
over arbitrary stored strings: a parse failure (the modelled exception), the
JSON literal `null`, and an absent key all produce the fallback, and
`loadMessages` on a null or empty session id is the empty array. -/
theorem storage_parsing_total (store : String → Option String)
    (raw : Option String) (fb : JsValue) :
    (jsonParseRaw raw = none → safeParse raw fb = fb) ∧
    (jsonParseRaw raw = some .null → safeParse raw fb = fb) ∧
    safeParse none fb = fb ∧
    (jsonParseRaw (store "policyChat.sessions") = none →
      loadSessionsJson store = .arr []) ∧
    loadMessagesJson none store = .arr [] ∧
    loadMessagesJson (some "") store = .arr [] := by
  refine ⟨?_, ?_, ?_, ?_, ?_, ?_⟩
  · intro h
    simp [safeParse, h]
  · intro h
    simp [safeParse, h, JsValue.isNull]
  · rfl
  · intro h
    simp [loadSessionsJson, safeParse, h]
  · rfl
  · rfl

/-- C9 witness: malformed JSON under the sessions key falls back to the
empty array, as do an absent key and an empty session id. -/
theorem storage_parsing_total_witness :
    safeParse (some "not json") (.arr []) = .arr [] ∧
    loadSessionsJson (fun _ => some "\x7b[") = .arr [] ∧
    safeParse none (.arr []) = .arr [] ∧
    loadMessagesJson (some "") (fun _ => some "[3]") = .arr [] :=
  ⟨(storage_parsing_total (fun _ => some "\x7b[") (some "not json") (.arr [])).1 rfl,
   (storage_parsing_total (fun _ => some "\x7b[") (some "not json") (.arr [])).2.2.2.1 rfl,
   (storage_parsing_total (fun _ => some "\x7b[") (some "not json") (.arr [])).2.2.1,
   (storage_parsing_total (fun _ => some "[3]") (some "not json") (.arr [])).2.2.2.2.2⟩

/-- C10: the `"policyChat.sessionId"` key is never set to an empty or falsy
value: `setSessionId` ignores falsy arguments (preserving the
absent-or-non-empty invariant), only `clearSessionId` can remove the key
(a set never turns a present value into an absent one), and the hook's
guarded write has the same storage effect as the transport setter. -/
theorem sessionId_key_invariant (v id : Option String)
    (h : validStoredSessionId v) :
    validStoredSessionId (setSessionIdOp id v) ∧
    (setSessionIdOp id v = none → v = none) ∧
    clearSessionIdOp v = none ∧
    hookGuardedSet id v = setSessionIdOp id v ∧
    validStoredSessionId (clearSessionIdOp v) := by
  rcases id with _ | s
  · refine ⟨h, fun hv => hv, rfl, ?_, Or.inl rfl⟩
    simp [hookGuardedSet, setSessionIdOp, jsTruthy]
  · by_cases hs : (s != "") = true
    · have hsne : s ≠ "" := by simpa using hs
      refine ⟨Or.inr ⟨s, ?_, hsne⟩, ?_, rfl, ?_, Or.inl rfl⟩
      · simp [setSessionIdOp, jsTruthy, hs]
      · intro hv
        simp [setSessionIdOp, jsTruthy, hs] at hv
      · simp [hookGuardedSet, jsTruthy, hs]
    · have hs0 : s = "" := by simpa using hs
      subst hs0
      refine ⟨?_, fun hv => ?_, rfl, ?_, Or.inl rfl⟩
      · simpa [setSessionIdOp, jsTruthy] using h
      · simpa [setSessionIdOp, jsTruthy] using hv
      · simp [hookGuardedSet, setSessionIdOp, jsTruthy]

/-- C10 witness: from a valid stored value, setting the empty string leaves
the stored id intact and valid, and only clearing removes it. -/
theorem sessionId_key_invariant_witness :
    validStoredSessionId (setSessionIdOp (some "") (some "abc")) ∧
    (setSessionIdOp (some "") (some "abc") = none → (some "abc" : Option String) = none) ∧
    clearSessionIdOp (some "abc") = none :=
  ⟨(sessionId_key_invariant (some "abc") (some "") (Or.inr ⟨"abc", rfl, by decide⟩)).1,
   (sessionId_key_invariant (some "abc") (some "") (Or.inr ⟨"abc", rfl, by decide⟩)).2.1,
   (sessionId_key_invariant (some "abc") (some "") (Or.inr ⟨"abc", rfl, by decide⟩)).2.2.1⟩

end PolicyChat
